import Mathlib

/-!
Shallow embedding of `src/pubmed_search.py` (PubMed Literature Search tool).

The module has one public entry point `search_pubmed(query, max_results)` and
two private helpers `_fetch_pubmed_data` and `_format_results`.  The remote
endpoints (esearch / esummary) are modelled by an `Env` value giving, for each
of the two HTTP GET calls of a single invocation, either a transport failure
or a response with a status code and an optional JSON body; Python exceptions
are modelled by `Except PyError`.  `_fetch_pubmed_data` additionally returns
the list of HTTP requests it issued, in order, so that properties about which
network calls happen can be stated.
-/

set_option autoImplicit false

namespace PubMed

/-- JSON values as decoded by `response.json()`.  Objects are association
lists with distinct keys (Python dicts produced by `json.loads`). -/
inductive Json where
  | null : Json
  | bool (b : Bool) : Json
  | num (n : Int) : Json
  | str (s : String) : Json
  | arr (xs : List Json) : Json
  | obj (kvs : List (String × Json)) : Json

/-- Python exceptions that the embedded code can raise. -/
inductive PyError where
  | keyError (k : String) : PyError
  | typeError (msg : String) : PyError
  | attributeError (msg : String) : PyError
  | httpError (status : Nat) (url : String) : PyError
  | jsonDecodeError : PyError
  | requestError (msg : String) : PyError

mutual

/-- Python `repr` of a JSON-decoded value (used by `str` on containers). -/
def pyRepr : Json → String
  | Json.null => "None"
  | Json.bool true => "True"
  | Json.bool false => "False"
  | Json.num n => toString n
  | Json.str s => "\x27" ++ s ++ "\x27"
  | Json.arr xs => "[" ++ pyReprList xs ++ "]"
  | Json.obj kvs => "\x7b" ++ pyReprPairs kvs ++ "\x7d"

/-- Comma-separated `repr`s of the elements of a list. -/
def pyReprList : List Json → String
  | [] => ""
  | [x] => pyRepr x
  | x :: xs => pyRepr x ++ ", " ++ pyReprList xs

/-- Comma-separated `repr`s of the entries of a dict. -/
def pyReprPairs : List (String × Json) → String
  | [] => ""
  | [(k, v)] => "\x27" ++ k ++ "\x27: " ++ pyRepr v
  | (k, v) :: kvs => "\x27" ++ k ++ "\x27: " ++ pyRepr v ++ ", " ++ pyReprPairs kvs

end

/-- Python `str()` of a JSON-decoded value, as used by f-string interpolation. -/
def pyStr : Json → String
  | Json.str s => s
  | j => pyRepr j

/-- The text `str(e)` produces for each modelled exception. -/
def PyError.message : PyError → String
  | PyError.keyError k => "\x27" ++ k ++ "\x27"
  | PyError.typeError msg => msg
  | PyError.attributeError msg => msg
  | PyError.httpError status url => toString status ++ " Error for url: " ++ url
  | PyError.jsonDecodeError => "Expecting value: line 1 column 1 (char 0)"
  | PyError.requestError msg => msg

/-- First binding of a key in a decoded-JSON object (dict lookup). -/
def objLookup : List (String × Json) → String → Option Json
  | [], _ => none
  | (k, v) :: kvs, key => if k = key then some v else objLookup kvs key

/-- Python truthiness of a JSON-decoded value (`if not x`, `if x`). -/
def pyTruthy : Json → Bool
  | Json.null => false
  | Json.bool b => b
  | Json.num n => n != 0
  | Json.str s => s != ""
  | Json.arr xs => !xs.isEmpty
  | Json.obj kvs => !kvs.isEmpty

/-- Python subscription `d[k]` on JSON-decoded values: dict lookup raising
`KeyError` on a missing key, `TypeError` on a non-subscriptable container or
a bad index type. -/
def jsonIndex : Json → Json → Except PyError Json
  | Json.obj kvs, Json.str s =>
    (match objLookup kvs s with
     | some v => Except.ok v
     | none => Except.error (PyError.keyError s))
  | Json.obj _, k => Except.error (PyError.keyError (pyStr k))
  | Json.arr _, _ =>
    Except.error (PyError.typeError "list indices must be integers or slices, not str")
  | Json.str _, _ => Except.error (PyError.typeError "string indices must be integers")
  | _, _ => Except.error (PyError.typeError "object is not subscriptable")

/-- Python iteration over a JSON-decoded value: lists yield their elements,
strings their characters, dicts their keys; other values raise `TypeError`. -/
def pyIter : Json → Except PyError (List Json)
  | Json.arr xs => Except.ok xs
  | Json.str s => Except.ok (s.toList.map fun c => Json.str (String.mk [c]))
  | Json.obj kvs => Except.ok (kvs.map fun kv => Json.str kv.1)
  | _ => Except.error (PyError.typeError "object is not iterable")

/-- Python substring test `needle in hay` for strings. -/
def strIncludes (needle hay : String) : Bool :=
  hay.toList.tails.any fun t => needle.toList.isPrefixOf t

/-- Python membership test `key in container` for a string key. -/
def pyContainsKey : Json → String → Except PyError Bool
  | Json.obj kvs, key => Except.ok (kvs.any fun kv => kv.1 = key)
  | Json.arr xs, key =>
    Except.ok (xs.any fun x =>
      match x with
      | Json.str s => s = key
      | _ => false)
  | Json.str s, key => Except.ok (strIncludes key s)
  | _, _ => Except.error (PyError.typeError "argument is not iterable")

/-- Python `str.join` semantics: the empty list joins to `""`, a singleton to
itself, otherwise elements are interleaved with the separator. -/
def joinSep (sep : String) : List String → String
  | [] => ""
  | [s] => s
  | s :: rest => s ++ sep ++ joinSep sep rest

/-- The elements handed to `str.join` must all be strings, else `TypeError`. -/
def strOnly : List Json → Except PyError (List String)
  | [] => Except.ok []
  | Json.str s :: rest =>
    (match strOnly rest with
     | Except.error e => Except.error e
     | Except.ok tl => Except.ok (s :: tl))
  | _ :: _ =>
    Except.error (PyError.typeError "sequence item: expected str instance")

/-- Python `sep.join(items)` over already-materialised items. -/
def strJoin (sep : String) (items : List Json) : Except PyError String :=
  match strOnly items with
  | Except.error e => Except.error e
  | Except.ok ss => Except.ok (joinSep sep ss)

/-- Python `",".join(article_ids)` from line 74 of the source: iterate the
value, then join, with each element required to be a string. -/
def joinComma (j : Json) : Except PyError String :=
  match pyIter j with
  | Except.error e => Except.error e
  | Except.ok items => strJoin "," items

/-- Python `article.get(key)` (`None` when absent) on a dict. -/
def dGet (d : List (String × Json)) (key : String) : Json :=
  match objLookup d key with
  | some v => v
  | none => Json.null

/-- Python `article.get(key, default)` on a dict. -/
def dGetD (d : List (String × Json)) (key : String) (default : Json) : Json :=
  match objLookup d key with
  | some v => v
  | none => default

/-- Python `article.get(key, default)` where the receiver may be any
JSON-decoded value: a non-dict receiver has no `get` attribute. -/
def pyGetD (article : Json) (key : String) (default : Json) : Except PyError Json :=
  match article with
  | Json.obj kvs => Except.ok (dGetD kvs key default)
  | _ => Except.error (PyError.attributeError "object has no attribute get")

/-- Consumption of the authors generator of lines 87-91: for each author,
evaluate `"name" in author and author["name"]` and yield `author["name"]`
when the test is truthy. -/
def authorItems : List Json → Except PyError (List Json)
  | [] => Except.ok []
  | a :: rest =>
    match pyContainsKey a "name" with
    | Except.error e => Except.error e
    | Except.ok false => authorItems rest
    | Except.ok true =>
      match jsonIndex a (Json.str "name") with
      | Except.error e => Except.error e
      | Except.ok v =>
        if pyTruthy v then
          match authorItems rest with
          | Except.error e => Except.error e
          | Except.ok tl => Except.ok (v :: tl)
        else authorItems rest

/-- The `next((id_obj["value"] for id_obj in ... if id_obj["idtype"] == "doi"), "")`
expression of lines 97-104: lazily scan the identifier entries, returning the
`value` of the first entry whose `idtype` equals `"doi"`, or `""` when no
entry matches.  Direct subscription, so a scanned entry missing `idtype` (or a
matching entry missing `value`) raises `KeyError`. -/
def findDoi : List Json → Except PyError Json
  | [] => Except.ok (Json.str "")
  | e :: rest =>
    match jsonIndex e (Json.str "idtype") with
    | Except.error err => Except.error err
    | Except.ok t =>
      match t with
      | Json.str s => if s = "doi" then jsonIndex e (Json.str "value") else findDoi rest
      | _ => findDoi rest

/-- A record dict as built by `_fetch_pubmed_data` (and consumed by
`_format_results`): a Python dict from field name to value. -/
abbrev PyDict := List (String × Json)

/-- Building one result dict (lines 83-107) for one article id: direct
`article["title"]`, the guarded authors join, `get` with defaults for
`pubdate` and `fulljournalname`, the doi scan, and the URL f-string. -/
def extractRecord (articleId : String) (article : Json) : Except PyError PyDict :=
  match jsonIndex article (Json.str "title") with
  | Except.error e => Except.error e
  | Except.ok title =>
    match pyContainsKey article "authors" with
    | Except.error e => Except.error e
    | Except.ok hasAuthors =>
      match (if hasAuthors then
               match pyGetD article "authors" (Json.arr []) with
               | Except.error e => Except.error e
               | Except.ok av =>
                 match pyIter av with
                 | Except.error e => Except.error e
                 | Except.ok items =>
                   match authorItems items with
                   | Except.error e => Except.error e
                   | Except.ok names => strJoin ", " names
             else Except.ok "") with
      | Except.error e => Except.error e
      | Except.ok authors =>
        match pyGetD article "pubdate" (Json.str "") with
        | Except.error e => Except.error e
        | Except.ok pubdate =>
          match pyGetD article "fulljournalname" (Json.str "") with
          | Except.error e => Except.error e
          | Except.ok journal =>
            match pyGetD article "articleids" (Json.arr []) with
            | Except.error e => Except.error e
            | Except.ok aids =>
              match pyIter aids with
              | Except.error e => Except.error e
              | Except.ok aidItems =>
                match findDoi aidItems with
                | Except.error e => Except.error e
                | Except.ok doi =>
                  Except.ok
                    [("title", title),
                     ("authors", Json.str authors),
                     ("pubdate", pubdate),
                     ("journal", journal),
                     ("doi", doi),
                     ("url", Json.str
                       ("https://pubmed.ncbi.nlm.nih.gov/" ++ articleId ++ "/"))]

/-- The `for article_id in article_ids` loop of lines 80-107: for each id in
order, `summaries[article_id]` then the record construction. -/
def extractRecords (summaries : Json) : List Json → Except PyError (List PyDict)
  | [] => Except.ok []
  | aid :: rest =>
    match jsonIndex summaries aid with
    | Except.error e => Except.error e
    | Except.ok article =>
      match extractRecord (pyStr aid) article with
      | Except.error e => Except.error e
      | Except.ok r =>
        match extractRecords summaries rest with
        | Except.error e => Except.error e
        | Except.ok rs => Except.ok (r :: rs)

/-- Outcome of one `requests.get`: a raised transport exception, or a
response carrying an HTTP status and a body that may or may not decode as
JSON (`none` means `response.json()` raises). -/
inductive HttpOutcome where
  | exn (msg : String) : HttpOutcome
  | resp (status : Nat) (body : Option Json) : HttpOutcome

/-- Behaviour of the two remote endpoints for one invocation: the outcome of
the esearch call and the outcome of the esummary call. -/
structure Env where
  search : HttpOutcome
  summary : HttpOutcome

/-- One issued HTTP GET request: url and query parameters in order. -/
structure Request where
  url : String
  params : List (String × String)

/-- The esearch request of lines 56-63 (`requests` serialises the integer
`retmax` with `str`). -/
def searchRequest (query : String) (maxResults : Int) : Request :=
  { url := "https://eutils.ncbi.nlm.nih.gov/entrez/eutils/esearch.fcgi",
    params := [("db", "pubmed"), ("term", query), ("retmode", "json"),
               ("retmax", toString maxResults)] }

/-- The esummary request of lines 73-75. -/
def summaryRequest (idsJoined : String) : Request :=
  { url := "https://eutils.ncbi.nlm.nih.gov/entrez/eutils/esummary.fcgi",
    params := [("db", "pubmed"), ("id", idsJoined), ("retmode", "json")] }

/-- `requests.get` followed by `response.raise_for_status()` and
`response.json()`: transport failures raise, statuses in [400,600) raise
`HTTPError`, an undecodable body raises `JSONDecodeError`. -/
def doRequest (outcome : HttpOutcome) (url : String) : Except PyError Json :=
  match outcome with
  | HttpOutcome.exn msg => Except.error (PyError.requestError msg)
  | HttpOutcome.resp status body =>
    if 400 ≤ status ∧ status < 600 then Except.error (PyError.httpError status url)
    else
      match body with
      | none => Except.error PyError.jsonDecodeError
      | some j => Except.ok j

/-- `_fetch_pubmed_data` (lines 48-108).  Returns the list of HTTP requests
issued, in order, together with the Python result: the record-dict list, or
the first exception raised. -/
def fetchPubmedData (query : String) (maxResults : Int) (env : Env) :
    List Request × Except PyError (List PyDict) :=
  let req1 := searchRequest query maxResults
  match doRequest env.search req1.url with
  | Except.error e => ([req1], Except.error e)
  | Except.ok searchData =>
    match jsonIndex searchData (Json.str "esearchresult") with
    | Except.error e => ([req1], Except.error e)
    | Except.ok esr =>
      match jsonIndex esr (Json.str "idlist") with
      | Except.error e => ([req1], Except.error e)
      | Except.ok articleIds =>
        if pyTruthy articleIds then
          match joinComma articleIds with
          | Except.error e => ([req1], Except.error e)
          | Except.ok idsJoined =>
            let req2 := summaryRequest idsJoined
            match doRequest env.summary req2.url with
            | Except.error e => ([req1, req2], Except.error e)
            | Except.ok summariesJson =>
              match jsonIndex summariesJson (Json.str "result") with
              | Except.error e => ([req1, req2], Except.error e)
              | Except.ok summaries =>
                match pyIter articleIds with
                | Except.error e => ([req1, req2], Except.error e)
                | Except.ok ids =>
                  match extractRecords summaries ids with
                  | Except.error e => ([req1, req2], Except.error e)
                  | Except.ok recs => ([req1, req2], Except.ok recs)
        else ([req1], Except.ok [])

/-- One record section of `_format_results` (lines 114-133), for 0-based
index `i`: the numbered heading, the conditional Authors line, the
conditional Published-in line (journal and pubdate joined with " - "), the
conditional DOI line, the unconditional PubMed Link line and the separator.
The `" - ".join` raises `TypeError` when a kept value is not a string. -/
def formatRecord (i : Nat) (article : PyDict) : Except PyError String :=
  let heading :=
    "## " ++ toString (i + 1) ++ ". " ++ pyStr (dGetD article "title" (Json.str "Untitled"))
      ++ "\n\n"
  let authorsLine :=
    if pyTruthy (dGet article "authors") then
      "**Authors:** " ++ pyStr (dGet article "authors") ++ "\n\n"
    else ""
  let journalInfo : List Json :=
    (if pyTruthy (dGet article "journal") then [dGet article "journal"] else []) ++
    (if pyTruthy (dGet article "pubdate") then [dGet article "pubdate"] else [])
  match (if journalInfo.isEmpty then Except.ok ""
         else
           match strJoin " - " journalInfo with
           | Except.error e => Except.error e
           | Except.ok s => Except.ok ("**Published in:** " ++ s ++ "\n\n")) with
  | Except.error e => Except.error e
  | Except.ok publishedLine =>
    let doiLine :=
      if pyTruthy (dGet article "doi") then
        "**DOI:** " ++ pyStr (dGet article "doi") ++ "\n\n"
      else ""
    let linkLine :=
      "**PubMed Link:** [View Article](" ++ pyStr (dGetD article "url" (Json.str ""))
        ++ ")\n\n"
    Except.ok (heading ++ authorsLine ++ publishedLine ++ doiLine ++ linkLine ++ "---\n\n")

/-- The `for i, article in enumerate(articles)` accumulation, starting at
0-based index `i`. -/
def formatRecordsFrom (i : Nat) : List PyDict → Except PyError String
  | [] => Except.ok ""
  | r :: rest =>
    match formatRecord i r with
    | Except.error e => Except.error e
    | Except.ok s =>
      match formatRecordsFrom (i + 1) rest with
      | Except.error e => Except.error e
      | Except.ok t => Except.ok (s ++ t)

/-- `_format_results` (lines 110-135): the header followed by one section per
record in input order. -/
def formatResults (query : String) (articles : List PyDict) : Except PyError String :=
  match formatRecordsFrom 0 articles with
  | Except.error e => Except.error e
  | Except.ok body =>
    Except.ok ("# PubMed Search Results\n\n**Query:** " ++ query ++ "\n\n**Found:** "
      ++ toString articles.length ++ " results\n\n" ++ body)

/-- The fixed no-results message of line 40. -/
def noResultsMsg (query : String) : String :=
  "No PubMed results found for query: \x27" ++ query ++ "\x27."

/-- `search_pubmed` (lines 23-46): fetch, the empty-list short circuit, the
formatter, and the catch-all `except Exception` turning any raised exception
into the inline error string. -/
def searchPubmed (query : String) (maxResults : Int) (env : Env) : String :=
  match (fetchPubmedData query maxResults env).2 with
  | Except.error e => "Error in PubMed search: " ++ e.message
  | Except.ok articles =>
    if articles.isEmpty then noResultsMsg query
    else
      match formatResults query articles with
      | Except.error e => "Error in PubMed search: " ++ e.message
      | Except.ok report => report

end PubMed

namespace PubMed

/-- A well-formed esearch body whose `esearchresult.idlist` is the given list
of identifier strings. -/
def mkSearchBody (ids : List String) : Json :=
  Json.obj [("esearchresult", Json.obj [("idlist", Json.arr (ids.map Json.str))])]

/-- An environment in which both endpoints answer 200 with decodable JSON:
the locator returns `ids`, the summarizer returns the given `result` map. -/
def mkOkEnv (ids : List String) (result : List (String × Json)) : Env :=
  { search := HttpOutcome.resp 200 (some (mkSearchBody ids)),
    summary := HttpOutcome.resp 200 (some (Json.obj [("result", Json.obj result)])) }

theorem strOnly_map (l : List String) : strOnly (l.map Json.str) = Except.ok l := by
  induction l with
  | nil => rfl
  | cons a as ih => simp [strOnly, ih]

theorem joinComma_map (l : List String) :
    joinComma (Json.arr (l.map Json.str)) = Except.ok (joinSep "," l) := by
  simp [joinComma, pyIter, strJoin, strOnly_map]

/-- In the all-well environment with a non-empty id list, `_fetch_pubmed_data`
issues exactly the two requests and its result is the record-extraction loop
over the ids in order. -/
theorem fetch_ok_shape (q : String) (n : Int) (ids : List String)
    (kvs : List (String × Json)) (hne : ids ≠ []) :
    fetchPubmedData q n (mkOkEnv ids kvs) =
      ([searchRequest q n, summaryRequest (joinSep "," ids)],
       extractRecords (Json.obj kvs) (ids.map Json.str)) := by
  cases ids with
  | nil => exact absurd rfl hne
  | cons a as =>
    have h200 : ¬ (400 ≤ 200 ∧ 200 < 600) := by decide
    unfold fetchPubmedData
    simp only [mkOkEnv, mkSearchBody, doRequest, if_neg h200, jsonIndex, objLookup,
      pyTruthy, pyIter, List.map_cons, List.isEmpty_cons, Bool.not_false, if_true,
      joinComma_map]
    have hj : joinComma (Json.arr (Json.str a :: List.map Json.str as)) =
        Except.ok (joinSep "," (a :: as)) := joinComma_map (a :: as)
    cases hrec : extractRecords (Json.obj kvs) (Json.str a :: as.map Json.str) <;>
      simp [hrec, hj]

end PubMed

namespace PubMed

/-- C1: `search_pubmed` is a total function into `String` for every query,
every `max_results` and every behaviour of the two endpoints (transport
failure, non-success status, arbitrary JSON body shape), so no exception ever
reaches the caller; the returned string is the fixed no-results message, an
inline "Error in PubMed search: \x7bmessage\x7d" rendering of the raised
exception, or the formatter's report for a non-empty record list. -/
theorem searchPubmed_always_returns_string (q : String) (n : Int) (env : Env) :
    searchPubmed q n env = noResultsMsg q ∨
    (∃ e : PyError, searchPubmed q n env = "Error in PubMed search: " ++ e.message) ∨
    (∃ arts : List PyDict, arts ≠ [] ∧
      formatResults q arts = Except.ok (searchPubmed q n env)) := by
  unfold searchPubmed
  cases hf : (fetchPubmedData q n env).2 with
  | error e => exact Or.inr (Or.inl ⟨e, rfl⟩)
  | ok arts =>
    cases arts with
    | nil => exact Or.inl (by simp)
    | cons a as =>
      cases hr : formatResults q (a :: as) with
      | error e =>
        refine Or.inr (Or.inl ⟨e, ?_⟩)
        simp [hr]
      | ok report =>
        refine Or.inr (Or.inr ⟨a :: as, List.cons_ne_nil a as, ?_⟩)
        simp [hr]

/-- C2 (behaviour of the code at the failing inputs): for every query, every
`max_results` value (0 and 51 included) and every endpoint behaviour, the
very first thing `_fetch_pubmed_data` does is issue the esearch HTTP request,
whose `retmax` parameter carries `max_results` verbatim; no range check ever
rejects the value beforehand. -/
theorem fetch_always_issues_search_request (q : String) (n : Int) (env : Env) :
    ((fetchPubmedData q n env).1).head? = some (searchRequest q n) ∧
    (searchRequest q n).params =
      [("db", "pubmed"), ("term", q), ("retmode", "json"), ("retmax", toString n)] := by
  refine ⟨?_, rfl⟩
  simp only [fetchPubmedData]
  repeat' split
  all_goals rfl

/-- C3: when the locator responds 200 with an empty `idlist`, the call
returns the fixed no-results message for the query, regardless of what the
summarizer endpoint would do, and the only HTTP request issued is the esearch
one (the esummary request is never made); the result is not an error
rendering. -/
theorem searchPubmed_empty_idlist (q : String) (n : Int) (outcome : HttpOutcome) :
    searchPubmed q n
        { search := HttpOutcome.resp 200 (some (mkSearchBody [])), summary := outcome } =
      noResultsMsg q ∧
    (fetchPubmedData q n
        { search := HttpOutcome.resp 200 (some (mkSearchBody [])), summary := outcome }).1 =
      [searchRequest q n] :=
  ⟨rfl, rfl⟩

end PubMed

namespace PubMed

theorem extractRecords_map (kvs : List (String × Json)) (f : String → PyDict)
    (ids : List String)
    (hex : ∀ id ∈ ids, ∃ a, objLookup kvs id = some a ∧
      extractRecord id a = Except.ok (f id)) :
    extractRecords (Json.obj kvs) (ids.map Json.str) = Except.ok (ids.map f) := by
  induction ids with
  | nil => rfl
  | cons i is ih =>
    obtain ⟨a, ha, hr⟩ := hex i (List.mem_cons_self i is)
    have ih2 := ih fun id hid => hex id (List.mem_cons_of_mem i hid)
    simp [extractRecords, jsonIndex, ha, pyStr, hr, ih2]

/-- C4: in the all-well environment whose locator returns `ids` and whose
summarizer response maps each id (in whatever key order) to an entry from
which a record is extracted, `_fetch_pubmed_data` returns exactly one record
per id, in exactly the order of `ids`. -/
theorem fetch_order_preserving (q : String) (n : Int) (ids : List String)
    (kvs : List (String × Json)) (f : String → PyDict) (hne : ids ≠ [])
    (hex : ∀ id ∈ ids, ∃ a, objLookup kvs id = some a ∧
      extractRecord id a = Except.ok (f id)) :
    (fetchPubmedData q n (mkOkEnv ids kvs)).2 = Except.ok (ids.map f) := by
  rw [fetch_ok_shape q n ids kvs hne]
  exact extractRecords_map kvs f ids hex

/-- A summarizer entry carrying only a title. -/
def wArt (t : String) : Json := Json.obj [("title", Json.str t)]

/-- The record dict the code builds from `wArt t` under id `id`. -/
def wRec (t id : String) : PyDict :=
  [("title", Json.str t), ("authors", Json.str ""), ("pubdate", Json.str ""),
   ("journal", Json.str ""), ("doi", Json.str ""),
   ("url", Json.str ("https://pubmed.ncbi.nlm.nih.gov/" ++ id ++ "/"))]

/-- Witness for `fetch_order_preserving`: ids ["222", "111"] against a
summarizer map keyed in the opposite order still yields the records in id
order. -/
theorem fetch_order_preserving_witness :
    (fetchPubmedData "q" 5 (mkOkEnv ["222", "111"]
        [("111", wArt "A"), ("222", wArt "B")])).2 =
      Except.ok [wRec "B" "222", wRec "A" "111"] := by
  have h := fetch_order_preserving "q" 5 ["222", "111"]
      [("111", wArt "A"), ("222", wArt "B")]
      (fun id => if id = "222" then wRec "B" "222" else wRec "A" "111")
      (List.cons_ne_nil _ _) ?_
  · simpa using h
  · intro id hid
    fin_cases hid
    · exact ⟨wArt "B", rfl, rfl⟩
    · exact ⟨wArt "A", rfl, rfl⟩

/-- C6: if some requested id has no entry in the summarizer batch response,
the extraction loop never returns a record list at all (the direct
`summaries[article_id]` lookup raises `KeyError` when the scan reaches the
missing id, and whatever happens on earlier ids is also a raise): a missing
id is never silently skipped and never yields a partial list. -/
theorem missing_id_never_ok (kvs : List (String × Json)) (ids : List Json)
    (id : String) (hmem : Json.str id ∈ ids) (hmiss : objLookup kvs id = none) :
    ¬ ∃ rs, extractRecords (Json.obj kvs) ids = Except.ok rs := by
  induction ids with
  | nil => simp at hmem
  | cons a rest ih =>
    rintro ⟨rs, hrs⟩
    rcases List.mem_cons.mp hmem with h | h
    · subst h
      simp [extractRecords, jsonIndex, hmiss] at hrs
    · cases h1 : jsonIndex (Json.obj kvs) a with
      | error e => simp [extractRecords, h1] at hrs
      | ok article =>
        cases h2 : extractRecord (pyStr a) article with
        | error e => simp [extractRecords, h1, h2] at hrs
        | ok r =>
          cases h3 : extractRecords (Json.obj kvs) rest with
          | error e => simp [extractRecords, h1, h2, h3] at hrs
          | ok rs2 => exact absurd ⟨rs2, h3⟩ (ih h)

/-- Witness for `missing_id_never_ok`: a singleton id list whose id the
summarizer map does not contain. -/
theorem missing_id_never_ok_witness :
    ¬ ∃ rs, extractRecords (Json.obj [("222", wArt "B")]) [Json.str "111"] =
      Except.ok rs :=
  missing_id_never_ok [("222", wArt "B")] [Json.str "111"] "111"
    (List.mem_singleton.mpr rfl) rfl

end PubMed

namespace PubMed

theorem extractRecords_length (s : Json) (ids : List Json) (rs : List PyDict)
    (h : extractRecords s ids = Except.ok rs) : rs.length = ids.length := by
  induction ids generalizing rs with
  | nil =>
    simp only [extractRecords] at h
    cases h
    rfl
  | cons a rest ih =>
    cases h1 : jsonIndex s a with
    | error e => simp [extractRecords, h1] at h
    | ok article =>
      cases h2 : extractRecord (pyStr a) article with
      | error e => simp [extractRecords, h1, h2] at h
      | ok r =>
        cases h3 : extractRecords s rest with
        | error e => simp [extractRecords, h1, h2, h3] at h
        | ok rs2 =>
          simp only [extractRecords, h1, h2, h3] at h
          cases h
          simp [ih rs2 h3]

/-- C7 as amended: the esearch request carries `retmax = max_results`
verbatim (so the locator is asked for at most that many identifiers), and the
record list returned by `_fetch_pubmed_data` has exactly one record per
identifier in the locator's `idlist` — its length is the idlist's length, not
a value clamped to `max_results`. -/
theorem fetch_result_length (q : String) (n : Int) (ids : List String)
    (kvs : List (String × Json)) (rs : List PyDict)
    (h : (fetchPubmedData q n (mkOkEnv ids kvs)).2 = Except.ok rs) :
    rs.length = ids.length ∧
    (searchRequest q n).params =
      [("db", "pubmed"), ("term", q), ("retmode", "json"), ("retmax", toString n)] := by
  refine ⟨?_, rfl⟩
  cases ids with
  | nil =>
    have h0 : (fetchPubmedData q n (mkOkEnv [] kvs)).2 =
        Except.ok ([] : List PyDict) := rfl
    rw [h0] at h
    cases h
    rfl
  | cons a as =>
    rw [fetch_ok_shape q n (a :: as) kvs (List.cons_ne_nil a as)] at h
    have hl := extractRecords_length _ _ _ h
    simpa using hl

/-- Witness for `fetch_result_length`: one id, one record. -/
theorem fetch_result_length_witness :
    (fetchPubmedData "q" 5 (mkOkEnv ["111"] [("111", wArt "A")])).2 =
      Except.ok [wRec "A" "111"] ∧
    ([wRec "A" "111"].length = (["111"] : List String).length ∧
      (searchRequest "q" 5).params =
        [("db", "pubmed"), ("term", "q"), ("retmode", "json"), ("retmax", "5")]) :=
  ⟨rfl, fetch_result_length "q" 5 ["111"] [("111", wArt "A")] [wRec "A" "111"] rfl⟩

/-- C7 counterexample: with `max_results = 1`, a locator response carrying
two identifiers makes `_fetch_pubmed_data` return two records — the record
list is not capped by `max_results` when the remote does not honour `retmax`. -/
theorem fetch_exceeds_max_results :
    (fetchPubmedData "q" 1 (mkOkEnv ["111", "222"]
        [("111", wArt "A"), ("222", wArt "B")])).2 =
      Except.ok [wRec "A" "111", wRec "B" "222"] ∧
    ¬ ([wRec "A" "111", wRec "B" "222"].length ≤ 1) :=
  ⟨rfl, by simp⟩

/-- A summarizer `articleids` entry with an idtype tag and a value. -/
def mkAidEntry (p : String × String) : Json :=
  Json.obj [("idtype", Json.str p.1), ("value", Json.str p.2)]

/-- The doi-selection rule as the specification states it: the value of the
first entry whose type tag equals "doi", or the empty string when no entry
matches. -/
def specFirstDoi : List (String × String) → String
  | [] => ""
  | (t, v) :: rest => if t = "doi" then v else specFirstDoi rest

theorem findDoi_spec (ts : List (String × String)) :
    findDoi (ts.map mkAidEntry) = Except.ok (Json.str (specFirstDoi ts)) := by
  induction ts with
  | nil => rfl
  | cons p rest ih =>
    obtain ⟨t, v⟩ := p
    by_cases h : t = "doi" <;>
      simp [findDoi, mkAidEntry, jsonIndex, objLookup, specFirstDoi, h, ih]

/-- C8: for a summarizer entry whose identifier list consists of
(idtype, value) pairs, the record the code extracts carries as doi the value
of the first pair whose idtype is "doi", and the empty string when no pair
matches. -/
theorem extractRecord_doi (aid tt : String) (ts : List (String × String)) :
    extractRecord aid (Json.obj [("title", Json.str tt),
        ("articleids", Json.arr (ts.map mkAidEntry))]) =
      Except.ok [("title", Json.str tt), ("authors", Json.str ""),
        ("pubdate", Json.str ""), ("journal", Json.str ""),
        ("doi", Json.str (specFirstDoi ts)),
        ("url", Json.str ("https://pubmed.ncbi.nlm.nih.gov/" ++ aid ++ "/"))] := by
  simp [extractRecord, jsonIndex, objLookup, pyContainsKey, pyGetD, dGetD,
    pyIter, findDoi_spec]

end PubMed

namespace PubMed

/-- C5 counterexample: a summarizer entry with no `title` field does not
yield a record with a placeholder title — the direct `article["title"]`
lookup raises `KeyError`, and the whole call returns the inline error string
instead of a report. -/
theorem missing_title_counterexample :
    extractRecord "111" (Json.obj [("articleids", Json.arr [])]) =
      Except.error (PyError.keyError "title") ∧
    searchPubmed "q" 5 (mkOkEnv ["111"] [("111", Json.obj [("articleids", Json.arr [])])]) =
      "Error in PubMed search: \x27title\x27" :=
  ⟨rfl, rfl⟩

/-- C5 as amended: whenever a summarizer entry lacks the `title` key, record
extraction fails with `KeyError("title")` (which the entry point renders as
the inline error string); the `Untitled` placeholder exists only in the
formatter, whose inputs from `_fetch_pubmed_data` always carry a title. -/
theorem missing_title_keyerror (aid : String) (kvs : List (String × Json))
    (h : objLookup kvs "title" = none) :
    extractRecord aid (Json.obj kvs) = Except.error (PyError.keyError "title") := by
  simp [extractRecord, jsonIndex, h]

/-- Witness for `missing_title_keyerror` at the empty entry. -/
theorem missing_title_keyerror_witness :
    extractRecord "x" (Json.obj []) = Except.error (PyError.keyError "title") :=
  missing_title_keyerror "x" [] rfl

theorem findDoi_missing_idtype (pre : List (List (String × Json)))
    (bad : List (String × Json)) (post : List Json)
    (hbad : objLookup bad "idtype" = none)
    (hpre : ∀ kvs ∈ pre, objLookup kvs "idtype" ≠ some (Json.str "doi")) :
    findDoi (pre.map Json.obj ++ Json.obj bad :: post) =
      Except.error (PyError.keyError "idtype") := by
  induction pre with
  | nil => simp [findDoi, jsonIndex, hbad]
  | cons kvs rest ih =>
    have hk := hpre kvs (List.mem_cons_self kvs rest)
    have ih2 := ih fun k hkm => hpre k (List.mem_cons_of_mem _ hkm)
    cases hkk : objLookup kvs "idtype" with
    | none => simp [findDoi, jsonIndex, hkk]
    | some t =>
      cases t with
      | str s =>
        have hs : s ≠ "doi" := by
          rintro rfl
          exact hk (by rw [hkk])
        simp [findDoi, jsonIndex, hkk, hs, ih2]
      | null => simp [findDoi, jsonIndex, hkk, ih2]
      | bool b => simp [findDoi, jsonIndex, hkk, ih2]
      | num m => simp [findDoi, jsonIndex, hkk, ih2]
      | arr xs => simp [findDoi, jsonIndex, hkk, ih2]
      | obj kvs2 => simp [findDoi, jsonIndex, hkk, ih2]

/-- An all-well environment whose locator returns the single id "1" and whose
summarizer entry for it has a title and the given `articleids` list. -/
def aidEnv (aids : List Json) : Env :=
  mkOkEnv ["1"] [("1", Json.obj [("title", Json.str "T"),
    ("articleids", Json.arr aids)])]

/-- C10: when some `articleids` entry lacks the `idtype` key and no earlier
entry is tagged "doi", the doi scan raises `KeyError("idtype")`, and
`search_pubmed` returns the inline error string rather than a report: the
malformed identifier entry is routed to the error path, not tolerated as
missing data. -/
theorem malformed_idtype_routed_to_error (q : String) (n : Int)
    (pre : List (List (String × Json))) (bad : List (String × Json))
    (post : List Json)
    (hbad : objLookup bad "idtype" = none)
    (hpre : ∀ kvs ∈ pre, objLookup kvs "idtype" ≠ some (Json.str "doi")) :
    searchPubmed q n (aidEnv (pre.map Json.obj ++ Json.obj bad :: post)) =
      "Error in PubMed search: \x27idtype\x27" := by
  have hdoi := findDoi_missing_idtype pre bad post hbad hpre
  have hrec : extractRecord "1" (Json.obj [("title", Json.str "T"),
      ("articleids", Json.arr (pre.map Json.obj ++ Json.obj bad :: post))]) =
      Except.error (PyError.keyError "idtype") := by
    simp [extractRecord, jsonIndex, objLookup, pyContainsKey, pyGetD, dGetD,
      pyIter, hdoi]
  have hfetch := fetch_ok_shape q n ["1"]
      [("1", Json.obj [("title", Json.str "T"),
        ("articleids", Json.arr (pre.map Json.obj ++ Json.obj bad :: post))])]
      (List.cons_ne_nil _ _)
  simp [searchPubmed, aidEnv, hfetch, extractRecords, jsonIndex, objLookup,
    pyStr, hrec, PyError.message]

/-- Witness for `malformed_idtype_routed_to_error`: one well-tagged non-doi
entry followed by an entry with no idtype key. -/
theorem malformed_idtype_routed_to_error_witness :
    searchPubmed "x" 5 (aidEnv
        ([[("idtype", Json.str "pubmed"), ("value", Json.str "1")]].map Json.obj ++
          Json.obj [("value", Json.str "10.1/x")] :: [])) =
      "Error in PubMed search: \x27idtype\x27" := by
  refine malformed_idtype_routed_to_error "x" 5
      [[("idtype", Json.str "pubmed"), ("value", Json.str "1")]]
      [("value", Json.str "10.1/x")] [] rfl ?_
  intro kvs hkvs
  fin_cases hkvs
  simp [objLookup]

end PubMed

namespace PubMed

/-- The specification's Record: one bibliographic entry whose fields are all
strings, the optional ones possibly empty. -/
structure Record where
  title : String
  authors : String
  pubdate : String
  journal : String
  doi : String
  url : String

/-- The dict form of a Record, as `_fetch_pubmed_data` builds it. -/
def Record.toDict (r : Record) : PyDict :=
  [("title", Json.str r.title), ("authors", Json.str r.authors),
   ("pubdate", Json.str r.pubdate), ("journal", Json.str r.journal),
   ("doi", Json.str r.doi), ("url", Json.str r.url)]

/-- The per-record report section as the specification's layout rules state
it: heading with 1-based ordinal and title; an Authors line iff authors is
non-empty; a Published-in line iff journal or pubdate is non-empty, joining
the non-empty ones with " - "; a DOI line iff doi is non-empty; always the
PubMed Link line; the separator.  No absent-value placeholder appears. -/
def specSection (i : Nat) (r : Record) : String :=
  "## " ++ toString (i + 1) ++ ". " ++ r.title ++ "\n\n"
    ++ (if r.authors = "" then "" else "**Authors:** " ++ r.authors ++ "\n\n")
    ++ (if r.journal = "" ∧ r.pubdate = "" then ""
        else "**Published in:** " ++
          (if r.pubdate = "" then r.journal
           else if r.journal = "" then r.pubdate
           else r.journal ++ " - " ++ r.pubdate) ++ "\n\n")
    ++ (if r.doi = "" then "" else "**DOI:** " ++ r.doi ++ "\n\n")
    ++ "**PubMed Link:** [View Article](" ++ r.url ++ ")\n\n"
    ++ "---\n\n"

/-- The concatenated sections for records in input order, 0-based index `i`. -/
def specSections (i : Nat) : List Record → String
  | [] => ""
  | r :: rest => specSection i r ++ specSections (i + 1) rest

theorem formatRecord_toDict (i : Nat) (r : Record) :
    formatRecord i r.toDict = Except.ok (specSection i r) := by
  obtain ⟨t, a, p, j, d, u⟩ := r
  by_cases ha : a = "" <;> by_cases hj : j = "" <;> by_cases hp : p = "" <;>
    by_cases hd : d = "" <;>
    simp [formatRecord, Record.toDict, specSection, dGet, dGetD, objLookup,
      pyStr, pyTruthy, strJoin, strOnly, joinSep, ha, hj, hp, hd,
      String.append_assoc, -String.reduceAppend]

theorem formatRecordsFrom_toDict (i : Nat) (rs : List Record) :
    formatRecordsFrom i (rs.map Record.toDict) = Except.ok (specSections i rs) := by
  induction rs generalizing i with
  | nil => rfl
  | cons r rest ih =>
    simp [formatRecordsFrom, specSections, formatRecord_toDict, ih]

/-- C9: on every query and every sequence of Records, the formatter succeeds
(no field combination makes it throw) and produces exactly the header
followed, for each record in input order with its 1-based ordinal, by the
section the specification describes: Authors line iff authors is non-empty,
Published-in line iff journal or pubdate is non-empty (non-empty ones joined
with " - "), DOI line iff doi is non-empty, and the PubMed Link line always,
even for an empty URL; no absent-value placeholder is ever printed. -/
theorem formatResults_spec (q : String) (rs : List Record) :
    formatResults q (rs.map Record.toDict) =
      Except.ok ("# PubMed Search Results\n\n**Query:** " ++ q
        ++ "\n\n**Found:** " ++ toString rs.length ++ " results\n\n"
        ++ specSections 0 rs) := by
  simp [formatResults, formatRecordsFrom_toDict]

end PubMed
